import Mathlib

/-!
Shallow embedding of the chi-sentry middleware (src/chi/chi.go).

The package wraps an HTTP handler: per request it resolves or clones a
Sentry hub, starts a transaction named after the raw URL path, registers
a deferred transaction finish and a deferred panic-recovery step, invokes
the wrapped handler, and on the normal path renames the transaction on the
reporting scope to the route pattern resolved by the chi router.

Go control flow is made explicit: deferred calls run LIFO on every exit
path (normal return and panic unwind), `recover()` yields the in-flight
panic value, and a `panic` inside a deferred call continues the unwind
after the remaining defers run.  External collaborators (the Sentry SDK
and the chi router) are modelled as an environment: the event id that
`Hub.RecoverWithContext` returns, the wall time until delivery of the
panic event completes, and the scope of the process-wide default hub.
Every observable SDK call is recorded in an event trace.
-/

namespace ChiSentry

/-- A Go value as it occurs as a panic payload here: either an ordinary
application value (modelled as a string), or the runtime error raised by
dereferencing a nil pointer. -/
inductive GoValue
  | str (s : String)
  | runtimeNilDeref
  deriving DecidableEq, Repr

/-- Result of invoking the wrapped (inner) handler on a request:
`handler.ServeHTTP(w, r)` either returns normally or panics with a value. -/
inductive InnerResult
  | normal
  | panics (v : GoValue)
  deriving DecidableEq, Repr

/-- Scope of a Sentry hub: the request attached via `Scope().SetRequest`
(identified by its URL path) and the transaction name set via
`Scope().SetTransaction`. -/
structure Scope where
  request : Option String
  transactionName : Option String
  deriving DecidableEq, Repr

/-- chi routing context (`*chi.Context`).  `pattern` is the route pattern
the router resolved for this request, i.e. the value `RoutePattern()`
returns on a non-nil context after routing completed. -/
structure RouteContext where
  pattern : String
  deriving DecidableEq, Repr

/-- An inbound HTTP request as the middleware observes it: its raw URL
path (`r.URL.Path`), the state of the Sentry hub carried on its context
if any (`sentry.GetHubFromContext`), and the chi routing context carried
on its context if any (`chi.RouteContext`). -/
structure Request where
  urlPath : String
  hubOnContext : Option Scope
  routeCtx : Option RouteContext
  deriving DecidableEq, Repr

/-- Behaviour of the external Sentry SDK during one request:
`defaultHubScope` is the scope of the process-wide `sentry.CurrentHub()`;
`reportEventId` is what `Hub.RecoverWithContext` returns (none when the
SDK declines or filters the event); `deliveryTime` is the wall time until
delivery of the panic event completes, used by the flush model. -/
structure SentryEnv where
  defaultHubScope : Scope
  reportEventId : Option Nat
  deliveryTime : Nat
  deriving DecidableEq, Repr

/-- Options configure a Handler (src/chi/chi.go lines 51 to 75).
Durations are nanoseconds, as Go's `time.Duration` counts them. -/
structure Options where
  Repanic : Bool
  WaitForDelivery : Bool
  Timeout : Nat
  deriving DecidableEq, Repr

/-- A Handler is the middleware factory (src/chi/chi.go lines 44 to 48).
Its three fields are set once by `New` and never written afterwards. -/
structure Handler where
  repanic : Bool
  waitForDelivery : Bool
  timeout : Nat
  deriving DecidableEq, Repr

/-- Two seconds in nanoseconds: `2 * time.Second`. -/
def twoSeconds : Nat := 2000000000

/-- New returns a new Handler (src/chi/chi.go lines 79 to 89): the timeout
defaults to 2s when `options.Timeout` is zero, the two flags are copied. -/
def New (options : Options) : Handler :=
  let timeout := if options.Timeout = 0 then twoSeconds else options.Timeout
  { repanic := options.Repanic
    timeout := timeout
    waitForDelivery := options.WaitForDelivery }

/-- Which hub the wrapper ended up using for the request: the hub already
present on the inbound context, or a fresh clone of the process-wide
default hub. -/
inductive HubChoice
  | fromContext
  | cloneOfDefault
  deriving DecidableEq, Repr

/-- Observable SDK calls the wrapper makes, in order.  `flush` records the
timeout passed to `Hub.Flush`, the time the call actually blocked, and
whether the in-flight delivery was cancelled by the call. -/
inductive Event
  | startTransaction (name : String)
  | setRequest (path : String)
  | serveHTTP
  | recoverWithContext (v : GoValue) (requestAttached : Bool) (eventId : Option Nat)
  | flush (timeout : Nat) (blockedFor : Nat) (deliveryCancelled : Bool)
  | setTransactionName (name : String)
  | finishTransaction
  deriving DecidableEq, Repr

/-- What the wrapper's caller observes: a normal return, or a panic
propagating out of the wrapper with the given value. -/
inductive Outcome
  | normal
  | panicked (v : GoValue)
  deriving DecidableEq, Repr

/-- Result of one wrapped request execution: the caller-visible outcome,
the trace of SDK calls, which hub was used and how many clones of the
default hub were made, and the final scope states of the request hub and
of the process-wide default hub. -/
structure ExecResult where
  outcome : Outcome
  trace : List Event
  hubChoice : HubChoice
  cloneCount : Nat
  usedHubScope : Scope
  defaultHubScope : Scope
  deriving DecidableEq, Repr

/-- Embeds `Handler.recoverWithSentry` (src/chi/chi.go lines 146 to 159),
run as a deferred call with `recovered` the value `recover()` returned
(none on the non-panicking path, where the whole body is skipped).  It
reports the panic with the request attached, flushes with the configured
timeout when an event id was produced and `waitForDelivery` is set, and
re-raises the original value when `repanic` is set.  Returns the events
emitted and the value re-raised, if any.  The flush model follows the
contract stated in the source's `Options.Timeout` doc (lines 69 to 74):
the call blocks until delivery completes or the timeout elapses,
whichever is first, and a timed-out wait does not cancel the delivery. -/
def recoverWithSentry (h : Handler) (env : SentryEnv) (recovered : Option GoValue) :
    List Event × Option GoValue :=
  match recovered with
  | none => ([], none)
  | some err =>
    (Event.recoverWithContext err true env.reportEventId ::
        (if env.reportEventId.isSome && h.waitForDelivery then
          [Event.flush h.timeout (min env.deliveryTime h.timeout) false]
        else []),
      if h.repanic then some err else none)

/-- Converts the re-raise decision of the unwinding deferred recovery into
the caller-visible outcome. -/
def outcomeOfUnwind : Option GoValue → Outcome
  | some p => Outcome.panicked p
  | none => Outcome.normal

/-- Embeds the wrapper returned by `Handler.handle` (src/chi/chi.go lines
109 to 144), executing one request.

Control flow of the Go body, made explicit:
1. hub := GetHubFromContext(ctx); if nil, hub := CurrentHub().Clone() and
   the clone is set on a derived context (lines 111 to 116);
2. transaction := StartTransaction(ctx, r.URL.Path, ...) and
   `defer transaction.Finish()` is registered first (lines 128 to 129);
3. hub.Scope().SetRequest(r) (line 134);
4. `defer h.recoverWithSentry(hub, r)` is registered second (line 135),
   so on unwind it runs before the transaction finish;
5. handler.ServeHTTP(w, r) (line 139); a panic here unwinds through
   recoverWithSentry and then the finish, which runs even when the
   recovery re-raises;
6. on normal return, `chi.RouteContext(r.Context()).RoutePattern()` is
   taken and set as the transaction name on the request hub's scope
   (lines 141 to 142).  When no chi routing context is on the request's
   context, `chi.RouteContext` returns a nil pointer and chi v5's
   `RoutePattern` (pre v5.0.11, matching this repository's era) reads
   `x.RoutePatterns` off the nil receiver: a runtime nil-dereference
   panic, raised after the two defers were registered, so it too unwinds
   through recoverWithSentry and the finish. -/
def Handler.handle (h : Handler) (inner : Request → InnerResult) (env : SentryEnv)
    (r : Request) : ExecResult :=
  let hubChoice := match r.hubOnContext with
    | some _ => HubChoice.fromContext
    | none => HubChoice.cloneOfDefault
  let hubScope := match r.hubOnContext with
    | some s => s
    | none => env.defaultHubScope
  let cloneCount := match r.hubOnContext with
    | some _ => 0
    | none => 1
  let scopeWithReq : Scope := { hubScope with request := some r.urlPath }
  let pre : List Event :=
    [Event.startTransaction r.urlPath, Event.setRequest r.urlPath, Event.serveHTTP]
  match inner r with
  | InnerResult.panics v =>
    let recRes := recoverWithSentry h env (some v)
    { outcome := outcomeOfUnwind recRes.2
      trace := (pre ++ recRes.1) ++ [Event.finishTransaction]
      hubChoice := hubChoice
      cloneCount := cloneCount
      usedHubScope := scopeWithReq
      defaultHubScope := env.defaultHubScope }
  | InnerResult.normal =>
    match r.routeCtx with
    | none =>
      let recRes := recoverWithSentry h env (some GoValue.runtimeNilDeref)
      { outcome := outcomeOfUnwind recRes.2
        trace := (pre ++ recRes.1) ++ [Event.finishTransaction]
        hubChoice := hubChoice
        cloneCount := cloneCount
        usedHubScope := scopeWithReq
        defaultHubScope := env.defaultHubScope }
    | some rctx =>
      { outcome := Outcome.normal
        trace := (pre ++ [Event.setTransactionName rctx.pattern]) ++
          [Event.finishTransaction]
        hubChoice := hubChoice
        cloneCount := cloneCount
        usedHubScope := { scopeWithReq with transactionName := some rctx.pattern }
        defaultHubScope := env.defaultHubScope }

/-- Handle wraps an existing handler (src/chi/chi.go lines 94 to 96): it
returns `h.handle(handler)`. -/
def Handler.Handle (h : Handler) (handler : Request → InnerResult) :
    SentryEnv → Request → ExecResult :=
  h.handle handler

/-- HandleFunc is like Handle but takes a handler function (src/chi/chi.go
lines 105 to 107): it returns `h.handle(handler)`. -/
def Handler.HandleFunc (h : Handler) (handler : Request → InnerResult) :
    SentryEnv → Request → ExecResult :=
  h.handle handler

/-! ## Concrete fixtures used by the witness theorems -/

/-- An inner handler that always panics with the string value "boom". -/
def innerBoom : Request → InnerResult :=
  fun _ => InnerResult.panics (GoValue.str "boom")

/-- An inner handler that always returns normally. -/
def innerOk : Request → InnerResult :=
  fun _ => InnerResult.normal

/-- A request with no hub on its context and a resolved chi route. -/
def reqUsers : Request :=
  { urlPath := "/users/42"
    hubOnContext := none
    routeCtx := some { pattern := "/users/\x7bid\x7d" } }

/-- A request that already carries a hub on its inbound context. -/
def reqWithHub : Request :=
  { urlPath := "/users/42"
    hubOnContext := some { request := none, transactionName := none }
    routeCtx := some { pattern := "/users/\x7bid\x7d" } }

/-- A request handled outside a chi router: no routing context. -/
def reqNoChi : Request :=
  { urlPath := "/users/42"
    hubOnContext := none
    routeCtx := none }

/-- An environment where reporting produces event id 7 and delivery takes
3s of wall time. -/
def envDelivered : SentryEnv :=
  { defaultHubScope := { request := none, transactionName := none }
    reportEventId := some 7
    deliveryTime := 3000000000 }

/-- A handler configured with Repanic and WaitForDelivery set and a 500ms
timeout. -/
def hStrict : Handler := New { Repanic := true, WaitForDelivery := true, Timeout := 500000000 }

/-- A handler configured with all options at their defaults. -/
def hLax : Handler := New { Repanic := false, WaitForDelivery := false, Timeout := 0 }

/-! ## Claims -/

/-- C1: for every request handled by the wrapper returned by
`Handler.handle`, the transaction started at request entry is finished
exactly once, whether the wrapped handler returns normally or panics
(including when the recovery step re-raises the panic). -/
theorem transaction_finished_exactly_once (h : Handler) (inner : Request → InnerResult)
    (env : SentryEnv) (r : Request) :
    (h.handle inner env r).trace.count Event.finishTransaction = 1 ∧
    (h.handle inner env r).trace.head? = some (Event.startTransaction r.urlPath) := by
  unfold Handler.handle
  cases inner r with
  | panics v =>
    simp [recoverWithSentry, List.count_append, List.count_cons]
    split <;> simp
  | normal =>
    cases r.routeCtx with
    | none =>
      simp [recoverWithSentry, List.count_append, List.count_cons]
      split <;> simp
    | some rctx =>
      simp [List.count_append, List.count_cons]

/-- C2: if the wrapped handler panics with value `v`, the wrapper
re-raises exactly `v` to its caller when `repanic` is set, and returns
normally to its caller when it is not. -/
theorem repanic_policy (h : Handler) (inner : Request → InnerResult)
    (env : SentryEnv) (r : Request) (v : GoValue)
    (hp : inner r = InnerResult.panics v) :
    (h.handle inner env r).outcome =
      (if h.repanic then Outcome.panicked v else Outcome.normal) := by
  unfold Handler.handle
  rw [hp]
  simp [recoverWithSentry, outcomeOfUnwind]
  cases h.repanic <;> simp [outcomeOfUnwind]

/-- C2 witness: `hStrict` has repanic set and re-raises "boom"; `hLax`
does not and completes normally. -/
theorem repanic_policy_witness :
    innerBoom reqUsers = InnerResult.panics (GoValue.str "boom") ∧
    (hStrict.handle innerBoom envDelivered reqUsers).outcome =
      (if hStrict.repanic then Outcome.panicked (GoValue.str "boom") else Outcome.normal) ∧
    (hLax.handle innerBoom envDelivered reqUsers).outcome =
      (if hLax.repanic then Outcome.panicked (GoValue.str "boom") else Outcome.normal) :=
  ⟨rfl,
    repanic_policy hStrict innerBoom envDelivered reqUsers (GoValue.str "boom") rfl,
    repanic_policy hLax innerBoom envDelivered reqUsers (GoValue.str "boom") rfl⟩

/-- C3: whenever the wrapped handler panics, the panic is intercepted and
reported to the hub via `RecoverWithContext` with the request attached,
whatever the `repanic` and `waitForDelivery` configuration, and whether
it is re-raised or suppressed is decided by `repanic` alone, never by the
panic value. -/
theorem panic_always_reported (h : Handler) (inner : Request → InnerResult)
    (env : SentryEnv) (r : Request) (v : GoValue)
    (hp : inner r = InnerResult.panics v) :
    Event.recoverWithContext v true env.reportEventId ∈ (h.handle inner env r).trace ∧
    ((h.handle inner env r).outcome = Outcome.normal ↔ h.repanic = false) ∧
    ((h.handle inner env r).outcome = Outcome.panicked v ↔ h.repanic = true) := by
  unfold Handler.handle
  rw [hp]
  simp [recoverWithSentry, outcomeOfUnwind]
  cases h.repanic <;> simp [outcomeOfUnwind]

/-- C3 witness: with `hStrict` the "boom" panic is reported with the
request attached and re-raised; suppression would need repanic off. -/
theorem panic_always_reported_witness :
    innerBoom reqUsers = InnerResult.panics (GoValue.str "boom") ∧
    (Event.recoverWithContext (GoValue.str "boom") true envDelivered.reportEventId ∈
        (hStrict.handle innerBoom envDelivered reqUsers).trace ∧
      ((hStrict.handle innerBoom envDelivered reqUsers).outcome = Outcome.normal ↔
        hStrict.repanic = false) ∧
      ((hStrict.handle innerBoom envDelivered reqUsers).outcome =
          Outcome.panicked (GoValue.str "boom") ↔ hStrict.repanic = true)) :=
  ⟨rfl, panic_always_reported hStrict innerBoom envDelivered reqUsers
    (GoValue.str "boom") rfl⟩

/-- C4: when the wrapped handler panics, a flush happens exactly when
reporting produced an event id and `waitForDelivery` is set; the flush is
passed the configured timeout, blocks for the delivery time or the
timeout, whichever is smaller (hence never longer than the timeout), and
does not cancel the in-flight delivery; with no event id or with
`waitForDelivery` off, no flush happens at all. -/
theorem wait_for_delivery_policy (h : Handler) (inner : Request → InnerResult)
    (env : SentryEnv) (r : Request) (v : GoValue)
    (hp : inner r = InnerResult.panics v) :
    (env.reportEventId.isSome = true → h.waitForDelivery = true →
      Event.flush h.timeout (min env.deliveryTime h.timeout) false ∈
        (h.handle inner env r).trace ∧
      min env.deliveryTime h.timeout ≤ h.timeout) ∧
    ((env.reportEventId = none ∨ h.waitForDelivery = false) →
      ∀ t b c, Event.flush t b c ∉ (h.handle inner env r).trace) := by
  unfold Handler.handle
  rw [hp]
  constructor
  · intro he hw
    simp [recoverWithSentry, he, hw]
  · rintro (he | hw) t b c
    · simp [recoverWithSentry, he]
    · simp [recoverWithSentry, hw]

/-- C4 witness: `hStrict` with a produced event id flushes, blocking
500ms (the timeout, shorter than the 3s delivery) without cancelling. -/
theorem wait_for_delivery_policy_witness :
    innerBoom reqUsers = InnerResult.panics (GoValue.str "boom") ∧
    envDelivered.reportEventId.isSome = true ∧
    hStrict.waitForDelivery = true ∧
    (Event.flush hStrict.timeout (min envDelivered.deliveryTime hStrict.timeout) false ∈
        (hStrict.handle innerBoom envDelivered reqUsers).trace ∧
      min envDelivered.deliveryTime hStrict.timeout ≤ hStrict.timeout) :=
  ⟨rfl, rfl, rfl,
    (wait_for_delivery_policy hStrict innerBoom envDelivered reqUsers
      (GoValue.str "boom") rfl).1 rfl rfl⟩

/-- C5: on a request where the wrapped handler returns normally, the
transaction is started under the raw URL path, and after the handler
returns the transaction name on the reporting scope is set to the route
pattern the router resolved, so the final name on the scope is the
matched pattern. -/
theorem transaction_renamed_to_route_pattern (h : Handler) (inner : Request → InnerResult)
    (env : SentryEnv) (r : Request) (rctx : RouteContext)
    (hn : inner r = InnerResult.normal) (hc : r.routeCtx = some rctx) :
    (h.handle inner env r).trace.head? = some (Event.startTransaction r.urlPath) ∧
    Event.setTransactionName rctx.pattern ∈ (h.handle inner env r).trace ∧
    (h.handle inner env r).usedHubScope.transactionName = some rctx.pattern ∧
    (h.handle inner env r).outcome = Outcome.normal := by
  unfold Handler.handle
  rw [hn, hc]
  simp

/-- C5 witness: GET /users/42 resolved to pattern /users/\x7bid\x7d, the
handler returns normally, and the scope ends up named by the pattern. -/
theorem transaction_renamed_to_route_pattern_witness :
    innerOk reqUsers = InnerResult.normal ∧
    reqUsers.routeCtx = some { pattern := "/users/\x7bid\x7d" } ∧
    ((hLax.handle innerOk envDelivered reqUsers).trace.head? =
        some (Event.startTransaction reqUsers.urlPath) ∧
      Event.setTransactionName "/users/\x7bid\x7d" ∈
        (hLax.handle innerOk envDelivered reqUsers).trace ∧
      (hLax.handle innerOk envDelivered reqUsers).usedHubScope.transactionName =
        some "/users/\x7bid\x7d" ∧
      (hLax.handle innerOk envDelivered reqUsers).outcome = Outcome.normal) :=
  ⟨rfl, rfl, transaction_renamed_to_route_pattern hLax innerOk envDelivered reqUsers
    { pattern := "/users/\x7bid\x7d" } rfl rfl⟩

/-- C6: when the inbound context carries no hub, the wrapper uses exactly
one clone of the process-wide default hub for the whole request and never
mutates the default hub; when a hub is already on the context, that hub
is used and no clone is made.  In either case the default hub's scope is
unchanged after the request. -/
theorem hub_clone_on_absence (h : Handler) (inner : Request → InnerResult)
    (env : SentryEnv) (r : Request) :
    (r.hubOnContext = none →
      (h.handle inner env r).hubChoice = HubChoice.cloneOfDefault ∧
      (h.handle inner env r).cloneCount = 1) ∧
    (∀ s, r.hubOnContext = some s →
      (h.handle inner env r).hubChoice = HubChoice.fromContext ∧
      (h.handle inner env r).cloneCount = 0) ∧
    (h.handle inner env r).defaultHubScope = env.defaultHubScope := by
  unfold Handler.handle
  cases inner r with
  | panics v =>
    cases hh : r.hubOnContext <;> simp [hh]
  | normal =>
    cases hc : r.routeCtx <;> cases hh : r.hubOnContext <;> simp [hh]

/-- C6 witness: `reqUsers` has no hub on its context, so one clone of the
default is used; `reqWithHub` has one, so no clone is made; the default
hub's scope is unchanged in both runs. -/
theorem hub_clone_on_absence_witness :
    (reqUsers.hubOnContext = none ∧
      (hLax.handle innerOk envDelivered reqUsers).hubChoice = HubChoice.cloneOfDefault ∧
      (hLax.handle innerOk envDelivered reqUsers).cloneCount = 1 ∧
      (hLax.handle innerOk envDelivered reqUsers).defaultHubScope =
        envDelivered.defaultHubScope) ∧
    (reqWithHub.hubOnContext = some { request := none, transactionName := none } ∧
      (hLax.handle innerOk envDelivered reqWithHub).hubChoice = HubChoice.fromContext ∧
      (hLax.handle innerOk envDelivered reqWithHub).cloneCount = 0) :=
  ⟨⟨rfl,
      ((hub_clone_on_absence hLax innerOk envDelivered reqUsers).1 rfl).1,
      ((hub_clone_on_absence hLax innerOk envDelivered reqUsers).1 rfl).2,
      (hub_clone_on_absence hLax innerOk envDelivered reqUsers).2.2⟩,
    ⟨rfl,
      ((hub_clone_on_absence hLax innerOk envDelivered reqWithHub).2.1
        { request := none, transactionName := none } rfl).1,
      ((hub_clone_on_absence hLax innerOk envDelivered reqWithHub).2.1
        { request := none, transactionName := none } rfl).2⟩⟩

/-- Helper: the exact trace of a run whose wrapped handler panics — the
three entry events, then the recovery step's events, then the finish. -/
theorem handle_trace_of_panic (h : Handler) (inner : Request → InnerResult)
    (env : SentryEnv) (r : Request) (v : GoValue)
    (hp : inner r = InnerResult.panics v) :
    (h.handle inner env r).trace =
      ([Event.startTransaction r.urlPath, Event.setRequest r.urlPath, Event.serveHTTP] ++
        (recoverWithSentry h env (some v)).1) ++ [Event.finishTransaction] := by
  unfold Handler.handle
  rw [hp]

/-- C7: the transaction finish is the first deferred call registered and
the recovery the second, so on panic unwind the recovery runs before the
finish — the report appears strictly before the finish in the trace — and
the finish is still the last event even when the recovery re-raises the
panic to the caller. -/
theorem recovery_runs_before_finish (h : Handler) (inner : Request → InnerResult)
    (env : SentryEnv) (r : Request) (v : GoValue)
    (hp : inner r = InnerResult.panics v) :
    (h.handle inner env r).trace.getLast? = some Event.finishTransaction ∧
    Event.recoverWithContext v true env.reportEventId ∈
      (h.handle inner env r).trace.dropLast ∧
    (h.repanic = true → (h.handle inner env r).outcome = Outcome.panicked v) := by
  rw [handle_trace_of_panic h inner env r v hp]
  refine ⟨List.getLast?_concat _, ?_, ?_⟩
  · rw [List.dropLast_concat]
    simp [recoverWithSentry]
  · intro hr
    unfold Handler.handle
    rw [hp]
    simp [recoverWithSentry, hr, outcomeOfUnwind]

/-- C7 witness: with `hStrict` (repanic on) the re-raised panic reaches
the caller, the report precedes the finish, and the finish is last. -/
theorem recovery_runs_before_finish_witness :
    innerBoom reqUsers = InnerResult.panics (GoValue.str "boom") ∧
    ((hStrict.handle innerBoom envDelivered reqUsers).trace.getLast? =
        some Event.finishTransaction ∧
      Event.recoverWithContext (GoValue.str "boom") true envDelivered.reportEventId ∈
        (hStrict.handle innerBoom envDelivered reqUsers).trace.dropLast ∧
      (hStrict.repanic = true →
        (hStrict.handle innerBoom envDelivered reqUsers).outcome =
          Outcome.panicked (GoValue.str "boom"))) :=
  ⟨rfl, recovery_runs_before_finish hStrict innerBoom envDelivered reqUsers
    (GoValue.str "boom") rfl⟩

/-- C8: `New` keeps a non-zero `options.Timeout` as the timeout, replaces
a zero one by 2 seconds, and copies the `Repanic` and `WaitForDelivery`
flags unchanged. -/
theorem new_applies_defaults (options : Options) :
    (options.Timeout ≠ 0 → (New options).timeout = options.Timeout) ∧
    (options.Timeout = 0 → (New options).timeout = twoSeconds) ∧
    (New options).repanic = options.Repanic ∧
    (New options).waitForDelivery = options.WaitForDelivery := by
  unfold New
  refine ⟨fun h0 => ?_, fun h0 => ?_, rfl, rfl⟩
  · simp [h0]
  · simp [h0]

/-- C8 witness: a 500ms timeout is kept; a zero timeout becomes 2s; the
flags are copied in both cases. -/
theorem new_applies_defaults_witness :
    ((500000000 : Nat) ≠ 0 ∧
      (New { Repanic := true, WaitForDelivery := true, Timeout := 500000000 }).timeout =
        500000000) ∧
    ((0 : Nat) = 0 ∧
      (New { Repanic := false, WaitForDelivery := false, Timeout := 0 }).timeout =
        twoSeconds ∧
      (New { Repanic := false, WaitForDelivery := false, Timeout := 0 }).repanic = false ∧
      (New { Repanic := false, WaitForDelivery := false, Timeout := 0 }).waitForDelivery =
        false) :=
  ⟨⟨by decide,
      (new_applies_defaults
        { Repanic := true, WaitForDelivery := true, Timeout := 500000000 }).1 (by decide)⟩,
    ⟨rfl,
      (new_applies_defaults
        { Repanic := false, WaitForDelivery := false, Timeout := 0 }).2.1 rfl,
      (new_applies_defaults
        { Repanic := false, WaitForDelivery := false, Timeout := 0 }).2.2.1,
      (new_applies_defaults
        { Repanic := false, WaitForDelivery := false, Timeout := 0 }).2.2.2⟩⟩

/-- C9: on a request whose context carries no chi routing context, after
the wrapped handler returns normally the post-handler route-pattern
lookup dereferences the nil routing context, so the middleware itself
raises a runtime nil-dereference panic: its own recovery step reports it
(the recovered value is the nil dereference, not any handler value), no
transaction name is ever set on the scope, and with repanic set the nil
dereference propagates to the caller.  Models chi v5 before v5.0.11,
whose `RoutePattern` has no nil-receiver guard. -/
theorem nil_route_context_panics (h : Handler) (inner : Request → InnerResult)
    (env : SentryEnv) (r : Request)
    (hn : inner r = InnerResult.normal) (hc : r.routeCtx = none) :
    Event.recoverWithContext GoValue.runtimeNilDeref true env.reportEventId ∈
      (h.handle inner env r).trace ∧
    (∀ p, Event.setTransactionName p ∉ (h.handle inner env r).trace) ∧
    (h.repanic = true →
      (h.handle inner env r).outcome = Outcome.panicked GoValue.runtimeNilDeref) := by
  unfold Handler.handle
  rw [hn, hc]
  refine ⟨?_, ?_, ?_⟩
  · simp [recoverWithSentry]
  · intro p
    simp [recoverWithSentry]
  · intro hr
    simp [recoverWithSentry, hr, outcomeOfUnwind]

/-- C9 witness: `reqNoChi` handled by a normally-returning handler under
`hStrict` ends with the nil-dereference panic reported and re-raised. -/
theorem nil_route_context_panics_witness :
    innerOk reqNoChi = InnerResult.normal ∧
    reqNoChi.routeCtx = none ∧
    (Event.recoverWithContext GoValue.runtimeNilDeref true envDelivered.reportEventId ∈
        (hStrict.handle innerOk envDelivered reqNoChi).trace ∧
      (∀ p, Event.setTransactionName p ∉
        (hStrict.handle innerOk envDelivered reqNoChi).trace) ∧
      (hStrict.repanic = true →
        (hStrict.handle innerOk envDelivered reqNoChi).outcome =
          Outcome.panicked GoValue.runtimeNilDeref)) :=
  ⟨rfl, rfl, nil_route_context_panics hStrict innerOk envDelivered reqNoChi rfl rfl⟩

/-- C10: for every handler and every request, the wrapper returned by
`Handler.HandleFunc` is the very wrapper returned by `Handler.Handle`:
both delegate to `Handler.handle`. -/
theorem handle_entry_points_equivalent (h : Handler) (handler : Request → InnerResult) :
    h.Handle handler = h.HandleFunc handler := rfl

end ChiSentry
